import Mathlib

/-!
Shallow embedding of `src/AIDE/floc_model.py` (AguaClara flocculation model)
and verification of its specification claims.

Machine floats are embedded as real numbers; `numpy` transcendental
functions become their `Real` counterparts (`np.exp ↦ Real.exp`,
`np.log2 ↦ Real.logb 2`, `np.log10 ↦ Real.logb 10`, `x ** y ↦ Real.rpow`).
Python attribute access on precipitate fields that may be unset
(a `Chemical` whose precipitate was declared distinct and never defined
raises on access) is embedded with `Option`: a function reading an unset
field returns `none`.
-/

namespace FlocModel

open Real Filter

noncomputable section

/-- Precipitate attributes of a `Chemical`.  In the Python source these are
the four `Precip*` instance attributes set together either at construction
(when the precipitate is the species itself) or by `define_Precip`.
`MolecWeight` and `AluminumMPM` may be `None` in the source (they are copied
from the parent, whose own values are optional), hence `Option ℝ`. -/
structure PrecipAttrs where
  Diameter : ℝ
  Density : ℝ
  MolecWeight : Option ℝ
  AluminumMPM : Option ℝ

/-- The `Chemical` class of `floc_model.py`.  `precip = none` models the
state in which the four `Precip*` attributes do not exist on the instance
(precipitate declared distinct, `define_Precip` never called); reading them
then fails. -/
structure Chemical where
  name : String
  Diameter : ℝ
  Density : ℝ
  MolecWeight : Option ℝ
  AluminumMPM : Option ℝ
  Precip : String
  PrecipName : String
  precip : Option PrecipAttrs

/-- `Chemical.__init__`: when the declared precipitate equals the species
name the precipitate attributes are initialized from the parent attributes;
otherwise only the precipitate name is recorded and the attributes are
left undefined. -/
def Chemical.init (name : String) (diameter density : ℝ) (molecWeight : Option ℝ)
    (Precipitate : String) (AluminumMPM : Option ℝ := none) : Chemical :=
  if Precipitate = name then
    { name := name, Diameter := diameter, Density := density,
      MolecWeight := molecWeight, AluminumMPM := AluminumMPM,
      Precip := Precipitate, PrecipName := name,
      precip := some ⟨diameter, density, molecWeight, AluminumMPM⟩ }
  else
    { name := name, Diameter := diameter, Density := density,
      MolecWeight := molecWeight, AluminumMPM := AluminumMPM,
      Precip := Precipitate, PrecipName := Precipitate,
      precip := none }

/-- `Chemical.define_Precip`: sets the four precipitate attributes. -/
def Chemical.define_Precip (c : Chemical) (diameter density molecweight alumMPM : ℝ) :
    Chemical :=
  { c with precip := some ⟨diameter, density, some molecweight, some alumMPM⟩ }

/-- Registry entry `PACl` (self-precipitating). -/
def PACl : Chemical :=
  Chemical.init ("PACl") (90 / 10 ^ 9) 1138 (some 1.039) ("PACl") (some 13)

/-- Registry entry `Alum`: distinct precipitate `AlOH3`, then
`Alum.define_Precip((70 * u.nm).to(u.m).magnitude, 2420, 0.078, 1)`. -/
def Alum : Chemical :=
  (Chemical.init ("Alum") (70 / 10 ^ 9) 2420 (some 0.59921) ("AlOH3")
    (some 2)).define_Precip (70 / 10 ^ 9) 2420 0.078 1

/-- Registry entry `HumicAcid` (self-precipitating, no molecular weight). -/
def HumicAcid : Chemical :=
  Chemical.init ("Humic Acid") (72 / 10 ^ 9) 1780 none ("Humic Acid") none

/-- Fractal diameter, based on data from Adachi. -/
def DIAM_FRACTAL : ℝ := 2.3

/-- Diameter of the clay particles in meters. -/
def DIAM_CLAY : ℝ := 7 / 10 ^ 6

/-- Ratio of clay platelet height to diameter. -/
def RATIO_HEIGHT_DIAM : ℝ := 0.1

/-- Density of clay in kg/m**3. -/
def DENS_CLAY : ℝ := 2650

/-- Ratio between inner viscous length scale and Kolmogorov length scale. -/
def RATIO_KOLMOGOROV : ℝ := 50

/-- Shape factor for drag on flocs used in terminal velocity equation. -/
def PHI_FLOC : ℝ := 45 / 24

/-- The Avogadro constant. -/
def NUM_AVOGADRO : ℝ := 6.0221415 * 10 ^ 23

/-- Molecular weight of aluminum in kg/mole. -/
def MOLEC_WEIGHT_ALUMINUM : ℝ := 0.027

/-- Modelled from the spec: the PhysChem Correlations external collaborator
(`AIDE.physchem`, not under `src/`), consumed as functions of temperature
returning kinematic viscosity and water density, plus a fixed
gravitational-acceleration constant. -/
structure PhysChem where
  density_water : ℝ → ℝ
  viscosity_kinematic : ℝ → ℝ
  gravity : ℝ

/-- `dens_alum_nanocluster(coag)`: density of the aluminum in the
nanocluster; reads the precipitate attributes. -/
def dens_alum_nanocluster (coag : Chemical) : Option ℝ := do
  let P ← coag.precip
  let mpm ← P.AluminumMPM
  let mw ← P.MolecWeight
  pure (P.Density * MOLEC_WEIGHT_ALUMINUM * mpm / mw)

/-- `conc_precipitate(ConcAluminum, coag)`: coagulant precipitate
concentration given aluminum dose; reads the precipitate attributes. -/
def conc_precipitate (ConcAluminum : ℝ) (coag : Chemical) : Option ℝ := do
  let P ← coag.precip
  let mw ← P.MolecWeight
  let mpm ← P.AluminumMPM
  pure ((ConcAluminum / MOLEC_WEIGHT_ALUMINUM) * (mw / mpm))

/-- `conc_floc(ConcAluminum, concClay, coag)`. -/
def conc_floc (ConcAluminum concClay : ℝ) (coag : Chemical) : Option ℝ := do
  let cp ← conc_precipitate ConcAluminum coag
  pure (cp + concClay)

/-- `moles_aluminum(ConcAluminum)`. -/
def moles_aluminum (ConcAluminum : ℝ) : ℝ :=
  ConcAluminum / MOLEC_WEIGHT_ALUMINUM

/-- `sep_dist_aluminum(ConcAluminum)`. -/
def sep_dist_aluminum (ConcAluminum : ℝ) : ℝ :=
  (1 / (NUM_AVOGADRO * moles_aluminum ConcAluminum)) ^ ((1 : ℝ) / 3)

/-- `num_clay(ConcClay, DiamClay)`. -/
def num_clay (ConcClay DiamClay : ℝ) : ℝ :=
  ConcClay / ((DENS_CLAY * Real.pi * DiamClay ^ 3) / 6)

/-- `sep_dist_clay(ConcClay, DiamClay)`. -/
def sep_dist_clay (ConcClay DiamClay : ℝ) : ℝ :=
  ((DENS_CLAY / ConcClay) * ((Real.pi * DiamClay ^ 3) / 6)) ^ ((1 : ℝ) / 3)

/-- `frac_vol_floc_initial(ConcAluminum, ConcClay, coag)`. -/
def frac_vol_floc_initial (ConcAluminum ConcClay : ℝ) (coag : Chemical) : Option ℝ := do
  let P ← coag.precip
  let cp ← conc_precipitate ConcAluminum coag
  pure (cp / P.Density + ConcClay / DENS_CLAY)

/-- `p(C, Cprime) = -np.log10(C/Cprime)`. -/
def p (C Cprime : ℝ) : ℝ :=
  -Real.logb 10 (C / Cprime)

/-- `invp(pC, Cprime) = Cprime * 10**-pC`. -/
def invp (pC Cprime : ℝ) : ℝ :=
  Cprime * (10 : ℝ) ^ (-pC)

/-- `diam_fractal(DiamFractal, DiamInitial, NumCol)`. -/
def diam_fractal (DiamFractal DiamInitial NumCol : ℝ) : ℝ :=
  DiamInitial * (2 : ℝ) ^ (NumCol / DiamFractal)

/-- `num_coll_reqd(DiamFractal, DiamInit, DiamTarget)`. -/
def num_coll_reqd (DiamFractal DiamInit DiamTarget : ℝ) : ℝ :=
  DiamFractal * Real.logb 2 (DiamTarget / DiamInit)

/-- `sep_dist_floc(ConcAluminum, ConcClay, coag, DiamFractal, DiamInit,
DiamTarget)`: separation distance as a function of floc size. -/
def sep_dist_floc (ConcAluminum ConcClay : ℝ) (coag : Chemical)
    (DiamFractal DiamInit DiamTarget : ℝ) : Option ℝ := do
  let fv ← frac_vol_floc_initial ConcAluminum ConcClay coag
  pure (DiamInit * (Real.pi / (6 * fv)) ^ ((1 : ℝ) / 3)
    * (DiamTarget / DiamInit) ^ (DiamFractal / 3))

/-- `frac_vol_floc(ConcAluminum, ConcClay, coag, DiamFractal, DiamInit,
DiamTarget)`: the floc volume fraction. -/
def frac_vol_floc (ConcAluminum ConcClay : ℝ) (coag : Chemical)
    (DiamFractal DiamInit DiamTarget : ℝ) : Option ℝ := do
  let fv ← frac_vol_floc_initial ConcAluminum ConcClay coag
  pure (fv * (DiamTarget / DiamInit) ^ (3 - DiamFractal))

/-- `dens_floc_init(ConcAluminum, ConcClay, coag)`. -/
def dens_floc_init (ConcAluminum ConcClay : ℝ) (coag : Chemical) : Option ℝ := do
  let cf ← conc_floc ConcAluminum ConcClay coag
  let fv ← frac_vol_floc_initial ConcAluminum ConcClay coag
  pure (cf / fv)

/-- `ratio_clay_sphere(RatioHeightDiameter)`. -/
def ratio_clay_sphere (RatioHeightDiameter : ℝ) : ℝ :=
  (1 / 2 + RatioHeightDiameter) * (2 / (3 * RatioHeightDiameter)) ^ ((2 : ℝ) / 3)

/-- `ratio_area_clay_total(ConcClay, DiamClay, DiamTube, DensityClay,
RatioHeightDiameter)`. -/
def ratio_area_clay_total (ConcClay DiamClay DiamTube DensityClay
    RatioHeightDiameter : ℝ) : ℝ :=
  1 / (1 + (2 * DiamClay
    / (3 * DiamTube * ratio_clay_sphere RatioHeightDiameter
       * (ConcClay / DensityClay))))

/-- `gamma_coag(ConcClay, ConcAluminum, coag, DiamTube, DiamClay,
DensityClay, RatioHeightDiameter)`: coverage of clay with nanoglobs. -/
def gamma_coag (ConcClay ConcAluminum : ℝ) (coag : Chemical)
    (DiamTube DiamClay DensityClay RatioHeightDiameter : ℝ) : Option ℝ := do
  let fvA ← frac_vol_floc_initial ConcAluminum 0 coag
  let fvC ← frac_vol_floc_initial 0 ConcClay coag
  pure (1 - Real.exp (((-fvA * DiamClay) / (fvC * coag.Diameter))
    * (1 / Real.pi)
    * (ratio_area_clay_total ConcClay DiamClay DiamTube DensityClay
         RatioHeightDiameter
       / ratio_clay_sphere RatioHeightDiameter)))

/-- `gamma_humic_acid_to_coag(ConcAl, ConcNatOrgMat, NatOrgMat, coag)`. -/
def gamma_humic_acid_to_coag (ConcAl ConcNatOrgMat : ℝ)
    (NatOrgMat coag : Chemical) : Option ℝ := do
  let cp ← conc_precipitate ConcAl coag
  pure (min ((ConcNatOrgMat / cp) * (coag.Density / NatOrgMat.Density)
    * (coag.Diameter / (4 * NatOrgMat.Diameter))) 1)

/-- `_pacl_term(DiamTube, DiamClay, DensityClay, ConcClay, ConcAl,
ConcNatOrgMat, NatOrgMat, coag, RatioHeightDiameter)`. -/
def pacl_term (DiamTube DiamClay DensityClay ConcClay ConcAl
    ConcNatOrgMat : ℝ) (NatOrgMat coag : Chemical)
    (RatioHeightDiameter : ℝ) : Option ℝ := do
  let g ← gamma_coag ConcClay ConcAl coag DiamTube DiamClay DensityClay
    RatioHeightDiameter
  let h ← gamma_humic_acid_to_coag ConcAl ConcNatOrgMat NatOrgMat coag
  pure (g * (1 - h))

/-- `alpha_pacl_clay(...)`: `2 * (PAClTerm * (1 - gamma_coag(...)))`. -/
def alpha_pacl_clay (DiamTube DiamClay DensityClay ConcClay ConcAl
    ConcNatOrgMat : ℝ) (NatOrgMat coag : Chemical)
    (RatioHeightDiameter : ℝ) : Option ℝ := do
  let PAClTerm ← pacl_term DiamTube DiamClay DensityClay ConcClay ConcAl
    ConcNatOrgMat NatOrgMat coag RatioHeightDiameter
  let g ← gamma_coag ConcClay ConcAl coag DiamTube DiamClay DensityClay
    RatioHeightDiameter
  pure (2 * (PAClTerm * (1 - g)))

/-- `alpha_pacl_pacl(...)`: `PAClTerm ** 2`. -/
def alpha_pacl_pacl (DiamTube DiamClay DensityClay ConcClay ConcAl
    ConcNatOrgMat : ℝ) (NatOrgMat coag : Chemical)
    (RatioHeightDiameter : ℝ) : Option ℝ := do
  let PAClTerm ← pacl_term DiamTube DiamClay DensityClay ConcClay ConcAl
    ConcNatOrgMat NatOrgMat coag RatioHeightDiameter
  pure (PAClTerm ^ 2)

/-- `alpha_pacl_nat_org_mat(...)`:
`2 * PAClTerm * gamma_coag(...) * gamma_humic_acid_to_coag(...)`. -/
def alpha_pacl_nat_org_mat (DiamTube DiamClay DensityClay ConcClay ConcAl
    ConcNatOrgMat : ℝ) (NatOrgMat coag : Chemical)
    (RatioHeightDiameter : ℝ) : Option ℝ := do
  let PAClTerm ← pacl_term DiamTube DiamClay DensityClay ConcClay ConcAl
    ConcNatOrgMat NatOrgMat coag RatioHeightDiameter
  let g ← gamma_coag ConcClay ConcAl coag DiamTube DiamClay DensityClay
    RatioHeightDiameter
  let h ← gamma_humic_acid_to_coag ConcAl ConcNatOrgMat NatOrgMat coag
  pure (2 * PAClTerm * g * h)

/-- `alpha(...)`: sum of the three collision-efficiency sub-coefficients. -/
def alpha (DiamTube DiamClay DensityClay ConcClay ConcAl
    ConcNatOrgMat : ℝ) (NatOrgMat coag : Chemical)
    (RatioHeightDiameter : ℝ) : Option ℝ := do
  let a ← alpha_pacl_nat_org_mat DiamTube DiamClay DensityClay ConcClay
    ConcAl ConcNatOrgMat NatOrgMat coag RatioHeightDiameter
  let b ← alpha_pacl_pacl DiamTube DiamClay DensityClay ConcClay ConcAl
    ConcNatOrgMat NatOrgMat coag RatioHeightDiameter
  let c ← alpha_pacl_clay DiamTube DiamClay DensityClay ConcClay ConcAl
    ConcNatOrgMat NatOrgMat coag RatioHeightDiameter
  pure (a + b + c)

/-- `vel_term_floc(ConcAl, ConcClay, coag, DiamFractal, DiamInit,
DiamTarget, Temp)`: floc terminal velocity.  `pc` is the PhysChem
collaborator. -/
def vel_term_floc (pc : PhysChem) (ConcAl ConcClay : ℝ) (coag : Chemical)
    (DiamFractal DiamInit DiamTarget Temp : ℝ) : Option ℝ := do
  let df ← dens_floc_init ConcAl ConcClay coag
  pure (((pc.gravity * DiamInit ^ 2)
      / (18 * PHI_FLOC * pc.viscosity_kinematic Temp))
    * ((df - pc.density_water Temp) / pc.density_water Temp)
    * (DiamTarget / DiamInit) ^ (DiamFractal - 1))

/-- `diam_floc_vel_term(ConcAl, ConcClay, coag, DiamFractal, DiamInit,
VelTerm, Temp)`: floc diameter as a function of terminal velocity. -/
def diam_floc_vel_term (pc : PhysChem) (ConcAl ConcClay : ℝ)
    (coag : Chemical) (DiamFractal DiamInit VelTerm Temp : ℝ) : Option ℝ := do
  let df ← dens_floc_init ConcAl ConcClay coag
  pure (DiamInit * (((18 * VelTerm * PHI_FLOC * pc.viscosity_kinematic Temp)
      / (pc.gravity * DiamInit ^ 2))
    * (pc.density_water Temp / (df - pc.density_water Temp)))
      ^ (1 / (DiamFractal - 1)))

/-- `time_res_tube(IDTube, LengthTube, FlowPlant)`. -/
def time_res_tube (IDTube LengthTube FlowPlant : ℝ) : ℝ :=
  LengthTube * Real.pi * (IDTube ^ 2 / 4) / FlowPlant

/-- Concrete coagulant species used to instantiate witnesses and
counterexamples: self-precipitating, unit diameter and density, with
precipitate molecular weight equal to the aluminum molecular weight and
unit aluminum content, so that `conc_precipitate` is the identity on the
dose. -/
def testCoag : Chemical :=
  Chemical.init ("T") 1 1 (some 0.027) ("T") (some 1)

/-- Concrete natural-organic-matter species used to instantiate witnesses
and counterexamples. -/
def testNOM : Chemical :=
  Chemical.init ("N") (1 / 4) 1 none ("N") none

end

/-- On a chemical with defined precipitate attributes, `gamma_coag` returns
a value, and that value is strictly below `1` (it is `1 - exp(...)` and the
exponential is positive). -/
lemma gamma_coag_lt_one (ConcClay ConcAluminum : ℝ) (coag : Chemical)
    (P : PrecipAttrs) (mw mpm DiamTube DiamClay DensityClay r : ℝ)
    (hP : coag.precip = some P) (hmw : P.MolecWeight = some mw)
    (hmpm : P.AluminumMPM = some mpm) :
    ∃ γ, gamma_coag ConcClay ConcAluminum coag DiamTube DiamClay DensityClay r
      = some γ ∧ γ < 1 := by
  simp [gamma_coag, frac_vol_floc_initial, conc_precipitate, hP, hmw, hmpm,
    Real.exp_pos]

/-- C1: for every fractal dimension `fd > 0`, initial diameter `d0 > 0` and
real number of collisions `n`, `num_coll_reqd` is the exact algebraic
inverse of `diam_fractal`:
`num_coll_reqd fd d0 (diam_fractal fd d0 n) = n`, and for every target
diameter `dt > 0`, `diam_fractal fd d0 (num_coll_reqd fd d0 dt) = dt`. -/
theorem num_coll_reqd_inverse_diam_fractal (fd d0 n dt : ℝ)
    (hfd : 0 < fd) (hd0 : 0 < d0) (hdt : 0 < dt) :
    num_coll_reqd fd d0 (diam_fractal fd d0 n) = n ∧
    diam_fractal fd d0 (num_coll_reqd fd d0 dt) = dt := by
  have h2 : (0 : ℝ) < 2 := by norm_num
  have h2' : (2 : ℝ) ≠ 1 := by norm_num
  constructor
  · unfold num_coll_reqd diam_fractal
    rw [mul_div_cancel_left₀ _ hd0.ne', Real.logb_rpow h2 h2']
    field_simp
  · unfold num_coll_reqd diam_fractal
    rw [mul_div_cancel_left₀ _ hfd.ne', Real.rpow_logb h2 h2' (by positivity)]
    field_simp

/-- Witness for C1 at `fd = 2.3`, `d0 = 10⁻⁶`, `n = 5`, `dt = 8·10⁻⁶`. -/
theorem num_coll_reqd_inverse_diam_fractal_witness :
    num_coll_reqd 2.3 (1 / 10 ^ 6) (diam_fractal 2.3 (1 / 10 ^ 6) 5) = 5 ∧
    diam_fractal 2.3 (1 / 10 ^ 6) (num_coll_reqd 2.3 (1 / 10 ^ 6) (8 / 10 ^ 6)) =
      8 / 10 ^ 6 :=
  num_coll_reqd_inverse_diam_fractal 2.3 (1 / 10 ^ 6) 5 (8 / 10 ^ 6)
    (by norm_num) (by norm_num) (by norm_num)

/-- C4: for strictly positive inputs and a coagulant with defined positive
precipitate attributes, `gamma_coag` returns a value in `[0, 1)`, and as
the coagulant dose grows without bound the coverage tends to `1` (never
reached at any finite dose, since every value is strictly below `1`). -/
theorem gamma_coag_mem_Ico (ConcClay ConcAluminum : ℝ) (coag : Chemical)
    (DiamTube DiamClay DensityClay RatioHeightDiameter : ℝ)
    (P : PrecipAttrs) (mw mpm : ℝ)
    (hP : coag.precip = some P) (hmw : P.MolecWeight = some mw)
    (hmpm : P.AluminumMPM = some mpm)
    (hmw0 : 0 < mw) (hmpm0 : 0 < mpm) (hPd : 0 < P.Density)
    (hD : 0 < coag.Diameter) (hCl : 0 < ConcClay) (hAl : 0 < ConcAluminum)
    (hDt : 0 < DiamTube) (hDc : 0 < DiamClay) (hρ : 0 < DensityClay)
    (hr : 0 < RatioHeightDiameter) :
    (∃ γ, gamma_coag ConcClay ConcAluminum coag DiamTube DiamClay DensityClay
        RatioHeightDiameter = some γ ∧ γ ∈ Set.Ico (0 : ℝ) 1) ∧
    Tendsto (fun A => (gamma_coag ConcClay A coag DiamTube DiamClay
        DensityClay RatioHeightDiameter).getD 0) atTop (nhds 1) := by
  have hMWA : (0 : ℝ) < MOLEC_WEIGHT_ALUMINUM := by
    norm_num [MOLEC_WEIGHT_ALUMINUM]
  have hDENS : (0 : ℝ) < DENS_CLAY := by norm_num [DENS_CLAY]
  have hrcs : 0 < ratio_clay_sphere RatioHeightDiameter := by
    unfold ratio_clay_sphere; positivity
  have hRat : 0 < ratio_area_clay_total ConcClay DiamClay DiamTube
      DensityClay RatioHeightDiameter := by
    unfold ratio_area_clay_total; positivity
  set K : ℝ := mw / mpm / (MOLEC_WEIGHT_ALUMINUM * P.Density) * DiamClay
    / (ConcClay / DENS_CLAY * coag.Diameter) * (1 / Real.pi)
    * (ratio_area_clay_total ConcClay DiamClay DiamTube DensityClay
        RatioHeightDiameter / ratio_clay_sphere RatioHeightDiameter)
    with hK
  have hKpos : 0 < K := by rw [hK]; positivity
  have key : ∀ A : ℝ, gamma_coag ConcClay A coag DiamTube DiamClay
      DensityClay RatioHeightDiameter = some (1 - Real.exp (-(K * A))) := by
    intro A
    simp [gamma_coag, frac_vol_floc_initial, conc_precipitate, hP, hmw, hmpm]
    rw [hK]
    ring
  constructor
  · refine ⟨1 - Real.exp (-(K * ConcAluminum)), key ConcAluminum,
      Set.mem_Ico.mpr ⟨?_, sub_lt_self 1 (Real.exp_pos _)⟩⟩
    have : Real.exp (-(K * ConcAluminum)) ≤ 1 :=
      Real.exp_le_one_iff.mpr (neg_nonpos.mpr (mul_nonneg hKpos.le hAl.le))
    linarith
  · have heq : (fun A => (gamma_coag ConcClay A coag DiamTube DiamClay
        DensityClay RatioHeightDiameter).getD 0)
        = fun A => 1 - Real.exp (-(K * A)) :=
      funext fun A => by rw [key A]; rfl
    rw [heq]
    have h1 : Tendsto (fun A : ℝ => -(K * A)) atTop atBot :=
      tendsto_neg_atTop_atBot.comp (Tendsto.const_mul_atTop hKpos tendsto_id)
    have h2 : Tendsto (fun A : ℝ => Real.exp (-(K * A))) atTop (nhds 0) :=
      Real.tendsto_exp_atBot.comp h1
    have h3 := Tendsto.const_sub (1 : ℝ) h2
    simpa using h3

/-- Witness for C4 at a concrete positive input on `testCoag`. -/
theorem gamma_coag_mem_Ico_witness :
    (∃ γ, gamma_coag 2650 1 testCoag (4 / 7) 1 2650 (2 / 3) = some γ ∧
      γ ∈ Set.Ico (0 : ℝ) 1) ∧
    Tendsto (fun A => (gamma_coag 2650 A testCoag (4 / 7) 1 2650
      (2 / 3)).getD 0) atTop (nhds 1) :=
  gamma_coag_mem_Ico 2650 1 testCoag (4 / 7) 1 2650 (2 / 3)
    ⟨1, 1, some 0.027, some 1⟩ 0.027 1 rfl rfl rfl (by norm_num)
    (by norm_num) (by norm_num) (by norm_num [testCoag, Chemical.init])
    (by norm_num) (by norm_num) (by norm_num) (by norm_num) (by norm_num)
    (by norm_num)

/-- C5: for every strictly positive `C` and `Cprime`, `invp` is the exact
inverse of `p`: `invp (p C Cprime) Cprime = C`; in particular
`p 1 10 = 1` and `invp 1 10 = 1`. -/
theorem invp_inverse_p :
    (∀ C Cprime : ℝ, 0 < C → 0 < Cprime → invp (p C Cprime) Cprime = C) ∧
    p 1 10 = 1 ∧ invp 1 10 = 1 := by
  have h10 : (0 : ℝ) < 10 := by norm_num
  have h10' : (10 : ℝ) ≠ 1 := by norm_num
  refine ⟨fun C Cprime hC hCp => ?_, ?_, ?_⟩
  · unfold invp p
    rw [neg_neg, Real.rpow_logb h10 h10' (by positivity)]
    field_simp
  · unfold p
    rw [show (1 : ℝ) / 10 = (10 : ℝ) ^ (-1 : ℝ) by
        rw [Real.rpow_neg_one]; norm_num,
      Real.logb_rpow h10 h10']
    norm_num
  · unfold invp
    rw [Real.rpow_neg_one]
    norm_num

/-- Witness for C5: the inverse law evaluated at `C = 3`, `Cprime = 7`. -/
theorem invp_inverse_p_witness : invp (p 3 7) 7 = 3 :=
  invp_inverse_p.1 3 7 (by norm_num) (by norm_num)

/-- C2: any precipitate-dependent computation (`dens_alum_nanocluster`,
`conc_precipitate`) on a Chemical constructed with a precipitate name
distinct from its own name, on which `define_Precip` was never called,
fails (the undefined-precipitate error, embedded as `none`). -/
theorem undefined_precipitate_error (name Precipitate : String)
    (diameter density : ℝ) (molecWeight AluminumMPM : Option ℝ)
    (ConcAluminum : ℝ) (hne : Precipitate ≠ name) :
    dens_alum_nanocluster
      (Chemical.init name diameter density molecWeight Precipitate AluminumMPM)
      = none ∧
    conc_precipitate ConcAluminum
      (Chemical.init name diameter density molecWeight Precipitate AluminumMPM)
      = none := by
  unfold Chemical.init
  rw [if_neg hne]
  simp [dens_alum_nanocluster, conc_precipitate]

/-- Witness for C2: the `Alum` registry entry before its
`define_Precip` call (precipitate `AlOH3 ≠ Alum`). -/
theorem undefined_precipitate_error_witness :
    dens_alum_nanocluster
      (Chemical.init ("Alum") (70 / 10 ^ 9) 2420 (some 0.59921) ("AlOH3")
        (some 2)) = none ∧
    conc_precipitate 1
      (Chemical.init ("Alum") (70 / 10 ^ 9) 2420 (some 0.59921) ("AlOH3")
        (some 2)) = none :=
  undefined_precipitate_error ("Alum") ("AlOH3") (70 / 10 ^ 9) 2420
    (some 0.59921) (some 2) 1 (by decide)

/-- C6: for every fractal dimension different from `1` and positive inputs
(with the initial floc density above water density, and positive physical
constants from the PhysChem collaborator), `diam_floc_vel_term` is the
exact algebraic inverse of `vel_term_floc`: feeding the terminal velocity
back in with the same remaining arguments returns the target diameter. -/
theorem diam_floc_vel_term_inverse (pc : PhysChem) (ConcAl ConcClay : ℝ)
    (coag : Chemical) (DiamFractal DiamInit DiamTarget Temp df : ℝ)
    (hdf : dens_floc_init ConcAl ConcClay coag = some df)
    (hρw : 0 < pc.density_water Temp)
    (hν : 0 < pc.viscosity_kinematic Temp) (hg : 0 < pc.gravity)
    (hd0 : 0 < DiamInit) (hdt : 0 < DiamTarget) (hfd : DiamFractal ≠ 1)
    (hgt : pc.density_water Temp < df) :
    ∃ v, vel_term_floc pc ConcAl ConcClay coag DiamFractal DiamInit
        DiamTarget Temp = some v ∧
      diam_floc_vel_term pc ConcAl ConcClay coag DiamFractal DiamInit v Temp
        = some DiamTarget := by
  have hΦ : (0 : ℝ) < PHI_FLOC := by norm_num [PHI_FLOC]
  set ν := pc.viscosity_kinematic Temp with hνdef
  set ρw := pc.density_water Temp with hρwdef
  set grav := pc.gravity with hgdef
  have hΔ : (0 : ℝ) < df - ρw := sub_pos.mpr hgt
  have hΦ0 : PHI_FLOC ≠ 0 := hΦ.ne'
  have hν0 : ν ≠ 0 := hν.ne'
  have hρw0 : ρw ≠ 0 := hρw.ne'
  have hg0 : grav ≠ 0 := hg.ne'
  have hd00 : DiamInit ≠ 0 := hd0.ne'
  have hΔ0 : df - ρw ≠ 0 := hΔ.ne'
  set V : ℝ := grav * DiamInit ^ 2 / (18 * PHI_FLOC * ν) * ((df - ρw) / ρw)
    * (DiamTarget / DiamInit) ^ (DiamFractal - 1) with hV
  refine ⟨V, ?_, ?_⟩
  · unfold vel_term_floc
    rw [hdf]
    rfl
  · unfold diam_floc_vel_term
    rw [hdf]
    show some (DiamInit * (18 * V * PHI_FLOC * ν / (grav * DiamInit ^ 2)
      * (ρw / (df - ρw))) ^ (1 / (DiamFractal - 1))) = some DiamTarget
    rw [Option.some_inj]
    have hinner : 18 * V * PHI_FLOC * ν / (grav * DiamInit ^ 2)
        * (ρw / (df - ρw))
        = (DiamTarget / DiamInit) ^ (DiamFractal - 1) := by
      rw [hV]
      field_simp
      ring
    rw [hinner, ← Real.rpow_mul (div_pos hdt hd0).le,
      mul_one_div_cancel (sub_ne_zero.mpr hfd), Real.rpow_one, mul_comm,
      div_mul_cancel₀ _ hd00]

/-- Witness for C6 on `testCoag` with a constant-valued PhysChem
collaborator. -/
theorem diam_floc_vel_term_inverse_witness :
    ∃ v, vel_term_floc ⟨fun _ => 1000, fun _ => 1, 10⟩ 1 2650 testCoag 2 1 2
        300 = some v ∧
      diam_floc_vel_term ⟨fun _ => 1000, fun _ => 1, 10⟩ 1 2650 testCoag 2 1
        v 300 = some 2 :=
  diam_floc_vel_term_inverse ⟨fun _ => 1000, fun _ => 1, 10⟩ 1 2650 testCoag
    2 1 2 300 (2651 / 2)
    (by simp [dens_floc_init, conc_floc, conc_precipitate,
      frac_vol_floc_initial, testCoag, Chemical.init, MOLEC_WEIGHT_ALUMINUM,
      DENS_CLAY]; norm_num)
    (by norm_num) (by norm_num) (by norm_num) (by norm_num) (by norm_num)
    (by norm_num) (by norm_num)

/-- C10: at every floc size, the separation distance returned by
`sep_dist_floc` is the one derived from the volume fraction at that same
size by the initial-size spacing formula:
`s = DiamTarget * (π / (6 * frac_vol_floc ...))^(1/3)`. -/
theorem sep_dist_floc_from_frac_vol (ConcAluminum ConcClay : ℝ)
    (coag : Chemical) (DiamFractal DiamInit DiamTarget φ0 : ℝ)
    (hφ : frac_vol_floc_initial ConcAluminum ConcClay coag = some φ0)
    (hφ0 : 0 < φ0) (hd0 : 0 < DiamInit) (hdt : 0 < DiamTarget) :
    ∃ s φ, sep_dist_floc ConcAluminum ConcClay coag DiamFractal DiamInit
        DiamTarget = some s ∧
      frac_vol_floc ConcAluminum ConcClay coag DiamFractal DiamInit
        DiamTarget = some φ ∧
      s = DiamTarget * (Real.pi / (6 * φ)) ^ ((1 : ℝ) / 3) := by
  have hr : 0 < DiamTarget / DiamInit := div_pos hdt hd0
  refine ⟨DiamInit * (Real.pi / (6 * φ0)) ^ ((1 : ℝ) / 3)
      * (DiamTarget / DiamInit) ^ (DiamFractal / 3),
    φ0 * (DiamTarget / DiamInit) ^ (3 - DiamFractal), ?_, ?_, ?_⟩
  · unfold sep_dist_floc
    rw [hφ]
    rfl
  · unfold frac_vol_floc
    rw [hφ]
    rfl
  · have h1 : Real.pi / (6 * (φ0 * (DiamTarget / DiamInit)
        ^ (3 - DiamFractal)))
        = Real.pi / (6 * φ0) * (DiamTarget / DiamInit) ^ (DiamFractal - 3)
        := by
      rw [show DiamFractal - 3 = -(3 - DiamFractal) by ring,
        Real.rpow_neg hr.le]
      have hy : (DiamTarget / DiamInit) ^ (3 - DiamFractal) ≠ 0 :=
        (Real.rpow_pos_of_pos hr _).ne'
      field_simp
      exact Or.inl (by ring)
    have h2 : (Real.pi / (6 * φ0) * (DiamTarget / DiamInit)
        ^ (DiamFractal - 3)) ^ ((1 : ℝ) / 3)
        = (Real.pi / (6 * φ0)) ^ ((1 : ℝ) / 3) * (DiamTarget / DiamInit)
          ^ ((DiamFractal - 3) * (1 / 3)) := by
      rw [Real.mul_rpow (by positivity) (Real.rpow_pos_of_pos hr _).le,
        ← Real.rpow_mul hr.le]
    have h3 : (DiamTarget / DiamInit) ^ (DiamFractal / 3)
        = (DiamTarget / DiamInit) ^ ((DiamFractal - 3) * (1 / 3))
          * (DiamTarget / DiamInit) := by
      rw [show DiamFractal / 3 = (DiamFractal - 3) * (1 / 3) + 1 by ring,
        Real.rpow_add hr, Real.rpow_one]
    have h4 : DiamInit * (DiamTarget / DiamInit) = DiamTarget := by
      field_simp
    calc DiamInit * (Real.pi / (6 * φ0)) ^ ((1 : ℝ) / 3)
          * (DiamTarget / DiamInit) ^ (DiamFractal / 3)
        = DiamInit * (DiamTarget / DiamInit)
          * ((Real.pi / (6 * φ0)) ^ ((1 : ℝ) / 3) * (DiamTarget / DiamInit)
            ^ ((DiamFractal - 3) * (1 / 3))) := by rw [h3]; ring
      _ = DiamTarget * ((Real.pi / (6 * φ0)
            * (DiamTarget / DiamInit) ^ (DiamFractal - 3)) ^ ((1 : ℝ) / 3))
          := by rw [h4, h2]
      _ = DiamTarget * (Real.pi / (6 * (φ0 * (DiamTarget / DiamInit)
            ^ (3 - DiamFractal)))) ^ ((1 : ℝ) / 3) := by rw [h1]

/-- Witness for C10 on `testCoag` at a concrete positive input. -/
theorem sep_dist_floc_from_frac_vol_witness :
    ∃ s φ, sep_dist_floc 1 2650 testCoag 2.3 1 2 = some s ∧
      frac_vol_floc 1 2650 testCoag 2.3 1 2 = some φ ∧
      s = 2 * (Real.pi / (6 * φ)) ^ ((1 : ℝ) / 3) :=
  sep_dist_floc_from_frac_vol 1 2650 testCoag 2.3 1 2 2
    (by simp [frac_vol_floc_initial, conc_precipitate, testCoag,
      Chemical.init, MOLEC_WEIGHT_ALUMINUM, DENS_CLAY]; norm_num)
    (by norm_num) (by norm_num) (by norm_num)

/-- C8 counterexample: after the precipitate-definition step, the registry
`Alum`'s precipitate density equals the parent `Alum` density (both 2420),
so the precipitate's density does not differ from the parent's. -/
theorem alum_precip_density_equals_parent :
    Option.map PrecipAttrs.Density Alum.precip = some Alum.Density ∧
    Alum.Density = 2420 := by
  constructor <;> rfl

/-- C8 amended: the registry `Alum` species has a hydrolysis precipitate
that is a distinct species (`AlOH3`) whose molecular weight and aluminum
content differ from the parent's, while its density and diameter equal the
parent's, after the precipitate-definition step completes. -/
theorem alum_precip_distinct_species :
    ∃ P, Alum.precip = some P ∧
      Alum.PrecipName ≠ Alum.name ∧
      P.MolecWeight ≠ Alum.MolecWeight ∧
      P.AluminumMPM ≠ Alum.AluminumMPM ∧
      P.Density = Alum.Density ∧ P.Diameter = Alum.Diameter := by
  refine ⟨_, rfl, by decide, ?_, ?_, rfl, rfl⟩
  · show some (0.078 : ℝ) ≠ some 0.59921
    simp only [ne_eq, Option.some.injEq]
    norm_num
  · show some (1 : ℝ) ≠ some 2
    simp only [ne_eq, Option.some.injEq]
    norm_num

/-- C3 counterexample: at a concrete input with full organic-matter
coverage (`gamma_humic_acid_to_coag = 1`), the coagulant-coagulant
coefficient is `0` while the claimed value
`uncoveredFraction² = (1 - gamma_coag)²` is nonzero: the code squares
`PAClTerm = gamma_coag * (1 - gamma_humic_acid_to_coag)`, not the
uncovered fraction `1 - gamma_coag`. -/
theorem alpha_pacl_pacl_ne_uncovered_sq :
    ∃ γ, gamma_coag 2650 1 testCoag (4 / 7) 1 2650 (2 / 3) = some γ ∧
      alpha_pacl_pacl (4 / 7) 1 2650 2650 1 1 testNOM testCoag (2 / 3)
        = some 0 ∧
      (1 - γ) ^ 2 ≠ 0 := by
  obtain ⟨γ, hγ, hγ1⟩ := gamma_coag_lt_one 2650 1 testCoag
    ⟨1, 1, some 0.027, some 1⟩ 0.027 1 (4 / 7) 1 2650 (2 / 3) rfl rfl rfl
  have hh : gamma_humic_acid_to_coag 1 1 testNOM testCoag = some 1 := by
    simp [gamma_humic_acid_to_coag, conc_precipitate, testCoag, testNOM,
      Chemical.init, MOLEC_WEIGHT_ALUMINUM]
    norm_num
  refine ⟨γ, hγ, ?_, pow_ne_zero 2 (sub_ne_zero.mpr hγ1.ne')⟩
  simp [alpha_pacl_pacl, pacl_term, hγ, hh]

/-- C3 amended: the overall collision efficiency `alpha` is the sum of the
three sub-coefficients, which are built from
`PAClTerm = coverage * (1 - organicFraction)` (coverage being `gamma_coag`
and organicFraction being `gamma_humic_acid_to_coag`): the coagulant-clay
coefficient is `2 * PAClTerm * uncoveredFraction`, the coagulant-coagulant
coefficient is `PAClTerm²`, and the coagulant-organic-matter coefficient is
`2 * PAClTerm * coverage * organicFraction`. -/
theorem alpha_decomposition (DiamTube DiamClay DensityClay ConcClay ConcAl
    ConcNatOrgMat : ℝ) (NatOrgMat coag : Chemical)
    (RatioHeightDiameter γ h : ℝ)
    (hγ : gamma_coag ConcClay ConcAl coag DiamTube DiamClay DensityClay
      RatioHeightDiameter = some γ)
    (hh : gamma_humic_acid_to_coag ConcAl ConcNatOrgMat NatOrgMat coag
      = some h) :
    alpha_pacl_clay DiamTube DiamClay DensityClay ConcClay ConcAl
        ConcNatOrgMat NatOrgMat coag RatioHeightDiameter
      = some (2 * ((γ * (1 - h)) * (1 - γ))) ∧
    alpha_pacl_pacl DiamTube DiamClay DensityClay ConcClay ConcAl
        ConcNatOrgMat NatOrgMat coag RatioHeightDiameter
      = some ((γ * (1 - h)) ^ 2) ∧
    alpha_pacl_nat_org_mat DiamTube DiamClay DensityClay ConcClay ConcAl
        ConcNatOrgMat NatOrgMat coag RatioHeightDiameter
      = some (2 * (γ * (1 - h)) * γ * h) ∧
    alpha DiamTube DiamClay DensityClay ConcClay ConcAl ConcNatOrgMat
        NatOrgMat coag RatioHeightDiameter
      = some (2 * (γ * (1 - h)) * γ * h + (γ * (1 - h)) ^ 2
          + 2 * ((γ * (1 - h)) * (1 - γ))) := by
  refine ⟨?_, ?_, ?_, ?_⟩ <;>
    simp [alpha, alpha_pacl_clay, alpha_pacl_pacl, alpha_pacl_nat_org_mat,
      pacl_term, hγ, hh]

/-- Witness for C3's amended claim at a concrete input. -/
theorem alpha_decomposition_witness :
    ∃ γ h, gamma_coag 2650 1 testCoag (4 / 7) 1 2650 (2 / 3) = some γ ∧
      gamma_humic_acid_to_coag 1 1 testNOM testCoag = some h ∧
      alpha (4 / 7) 1 2650 2650 1 1 testNOM testCoag (2 / 3)
        = some (2 * (γ * (1 - h)) * γ * h + (γ * (1 - h)) ^ 2
            + 2 * ((γ * (1 - h)) * (1 - γ))) := by
  obtain ⟨γ, hγ, _⟩ := gamma_coag_lt_one 2650 1 testCoag
    ⟨1, 1, some 0.027, some 1⟩ 0.027 1 (4 / 7) 1 2650 (2 / 3) rfl rfl rfl
  obtain ⟨h, hh⟩ : ∃ h, gamma_humic_acid_to_coag 1 1 testNOM testCoag
      = some h := ⟨_, rfl⟩
  exact ⟨γ, h, hγ, hh, (alpha_decomposition (4 / 7) 1 2650 2650 1 1 testNOM
    testCoag (2 / 3) γ h hγ hh).2.2.2⟩

/-- C9: for fixed tube inner diameter, `time_res_tube` scales linearly with
tube length and inversely with volumetric flow rate, for every positive
scaling factor `c`, and it equals tube volume divided by volumetric flow
rate. -/
theorem time_res_tube_scaling (ID L Q c : ℝ) (hc : 0 < c) :
    time_res_tube ID (c * L) Q = c * time_res_tube ID L Q ∧
    time_res_tube ID L (c * Q) = time_res_tube ID L Q / c ∧
    time_res_tube ID L Q = (Real.pi * (ID ^ 2 / 4) * L) / Q := by
  refine ⟨?_, ?_, ?_⟩ <;> unfold time_res_tube <;> ring

/-- Witness for C9 at `ID = 1`, `L = 2`, `Q = 3`, `c = 5`. -/
theorem time_res_tube_scaling_witness :
    time_res_tube 1 (5 * 2) 3 = 5 * time_res_tube 1 2 3 ∧
    time_res_tube 1 2 (5 * 3) = time_res_tube 1 2 3 / 5 ∧
    time_res_tube 1 2 3 = (Real.pi * (1 ^ 2 / 4) * 2) / 3 :=
  time_res_tube_scaling 1 2 3 5 (by norm_num)

end FlocModel
